import Mathlib

/-!
Verification of the telemetry core of the mikrotik-monit repository
(`src/unnamed/part_000`: `connectionPool.js` followed by the optimized
`server.js`).  Wall-clock time is threaded explicitly as a `Nat` of
milliseconds (the JS code reads `Date.now()`); the vendor protocol adapter
(node-routeros) is modelled as an environment supplying the outcome of each
network call.  Session handles are identified by `Nat` tokens.
-/

namespace MikrotikMonit

/-- A cache slot as stored by `setCache` (part_000 lines 36-42):
the payload together with the `Date.now()` timestamp of the store. -/
structure CEntry (α : Type) where
  data : α
  timestamp : Nat
deriving DecidableEq, Repr

/-- `this.cacheData`: a map keyed by `getCacheKey(routerId, endpoint)`, which is
the string `routerId + "_" + endpoint` (part_000 lines 20-22).  Router ids are
numeric, and the decimal rendering of a `Nat` contains no underscore, so that
string key is injective in the pair; the key is therefore modelled as the pair
`(routerId, endpoint)` directly. -/
def Cache (α : Type) : Type := Nat × String → Option (CEntry α)

/-- `this.cacheTimeouts[endpoint] || 5000` (part_000 lines 9-15 and 27). -/
def cacheTimeouts (endpoint : String) : Nat :=
  if endpoint = "overview" then 3000
  else if endpoint = "bandwidth" then 2000
  else if endpoint = "queues" then 10000
  else if endpoint = "interfaces" then 5000
  else if endpoint = "resources" then 3000
  else 5000

/-- `getFromCache(routerId, endpoint)` (part_000 lines 24-34): a hit requires a
stored entry whose age is strictly below the per-endpoint timeout. -/
def getFromCache {α : Type} (c : Cache α) (routerId : Nat) (endpoint : String)
    (now : Nat) : Option α :=
  match c (routerId, endpoint) with
  | some cached =>
    if now - cached.timestamp < cacheTimeouts endpoint then some cached.data else none
  | none => none

/-- `setCache(routerId, endpoint, data)` (part_000 lines 36-42): store the
payload with the current timestamp, overwriting any prior entry for the key. -/
def setCache {α : Type} (c : Cache α) (routerId : Nat) (endpoint : String)
    (data : α) (now : Nat) : Cache α :=
  fun k => if k = (routerId, endpoint) then some ⟨data, now⟩ else c k

/-- The cache half of `cleanup()` (part_000 lines 120-125): drop every entry
older than the 30 s hard ceiling. -/
def cacheCleanup {α : Type} (c : Cache α) (now : Nat) : Cache α :=
  fun k =>
    match c k with
    | some cached => if 30000 < now - cached.timestamp then none else some cached
    | none => none

/-- A router configuration record (loaded from `config/routers.json`).  Only
the fields the pooled core reads are modelled; username, password and port are
consumed solely by the adapter connect call, which is abstracted as an
environment outcome. -/
structure Config where
  id : Nat
  name : String
  ip : String
deriving DecidableEq, Repr

/-- A pool slot (part_000 lines 75-80):
`{ connection, lastUsed, useCount, config }`. -/
structure PoolEntry where
  connection : Nat
  lastUsed : Nat
  useCount : Nat
  config : Config
deriving DecidableEq, Repr

/-- `this.pools`, keyed by `poolKey = config.id + "_" + config.ip`
(part_000 line 45), modelled as the pair for the same injectivity reason as
the cache key. -/
def Pool : Type := Nat × String → Option PoolEntry

/-- The observable outcome of one `getConnection` call: the returned handle
(`none` stands for the `null` returned on connect failure), the pool
afterwards, whether the adapter connect was invoked, and the handles on which
a best-effort `close` was attempted. -/
structure GetConnResult where
  conn : Option Nat
  pool : Pool
  connectInvoked : Bool
  closed : List Nat

/-- `getConnection(config)` (part_000 lines 44-87).  `connectResult` is the
outcome of `new RouterOS(...).connect()` for this call (`none` = the promise
rejected); `closeOk` is the outcome of the best-effort close of a stale entry.
The `try { await close() } catch (e) {}` at lines 56-58 swallows close
failures, so the body never consults `closeOk`: the result is literally
independent of it. -/
def getConnection (p : Pool) (config : Config) (now : Nat)
    (connectResult : Option Nat) (closeOk : Bool) : GetConnResult :=
  let poolKey := (config.id, config.ip)
  match p poolKey with
  | some poolEntry =>
    if now - poolEntry.lastUsed < 120000 then
      { conn := some poolEntry.connection
        pool := fun k =>
          if k = poolKey then
            some { poolEntry with lastUsed := now, useCount := poolEntry.useCount + 1 }
          else p k
        connectInvoked := false
        closed := [] }
    else
      let pDeleted : Pool := fun k => if k = poolKey then none else p k
      match connectResult with
      | some conn =>
        { conn := some conn
          pool := fun k =>
            if k = poolKey then
              some { connection := conn, lastUsed := now, useCount := 1, config := config }
            else pDeleted k
          connectInvoked := true
          closed := [poolEntry.connection] }
      | none =>
        { conn := none
          pool := pDeleted
          connectInvoked := true
          closed := [poolEntry.connection] }
  | none =>
    match connectResult with
    | some conn =>
      { conn := some conn
        pool := fun k =>
          if k = poolKey then
            some { connection := conn, lastUsed := now, useCount := 1, config := config }
          else p k
        connectInvoked := true
        closed := [] }
    | none => { conn := none, pool := p, connectInvoked := true, closed := [] }

/-- `releaseConnection(config)` (part_000 lines 89-95): if an entry exists for
the key, bump `lastUsed` only; the session stays pooled. -/
def releaseConnection (p : Pool) (config : Config) (now : Nat) : Pool :=
  fun k =>
    if k = (config.id, config.ip) then (p k).map (fun e => { e with lastUsed := now })
    else p k

/-- `closeConnection(config)` (part_000 lines 97-105): best-effort close, then
remove the entry regardless of the close outcome. -/
def closeConnection (p : Pool) (config : Config) : Pool :=
  fun k => if k = (config.id, config.ip) then none else p k

/-- The pool half of `cleanup()` (part_000 lines 107-118): force-close and drop
entries idle for more than 300 s. -/
def poolCleanup (p : Pool) (now : Nat) : Pool :=
  fun k =>
    match p k with
    | some poolEntry => if 300000 < now - poolEntry.lastUsed then none else some poolEntry
    | none => none

/-- One `trafficHistory` record (part_000 line 365). -/
structure RateSample where
  lastRx : Nat
  lastTx : Nat
  lastTime : Nat
deriving DecidableEq, Repr

/-- `trafficHistory`, keyed by `routerId + "_" + interfaceName`
(part_000 line 362), modelled as the pair. -/
def TrafficHistory : Type := Nat × String → Option RateSample

/-- JavaScript `Math.round`: round half toward positive infinity. -/
def jsRound (q : ℚ) : ℤ := ⌊q + 1 / 2⌋

/-- `calculateRates(routerId, interfaceName, currentRx, currentTx)` (part_000
lines 360-391).  `currentTime` stands for the `Date.now()` read at line 361;
byte counters are naturals and the returned rates are the exact integer
results of `Math.round`.  Returns the rate pair together with the
`trafficHistory` after the call. -/
def calculateRates (hist : TrafficHistory) (routerId : Nat) (interfaceName : String)
    (currentRx currentTx : Nat) (currentTime : Nat) : (ℤ × ℤ) × TrafficHistory :=
  let key := (routerId, interfaceName)
  match hist key with
  | none =>
    ((0, 0), fun k => if k = key then some ⟨currentRx, currentTx, currentTime⟩ else hist k)
  | some history =>
    let timeDiff : ℚ := ((currentTime : ℚ) - (history.lastTime : ℚ)) / 1000
    if 3 / 2 ≤ timeDiff then
      let rxDiff : ℚ :=
        if history.lastRx ≤ currentRx then (currentRx : ℚ) - (history.lastRx : ℚ)
        else (currentRx : ℚ)
      let txDiff : ℚ :=
        if history.lastTx ≤ currentTx then (currentTx : ℚ) - (history.lastTx : ℚ)
        else (currentTx : ℚ)
      let rxRate := max 0 (jsRound (rxDiff * 8 / timeDiff))
      let txRate := max 0 (jsRound (txDiff * 8 / timeDiff))
      ((rxRate, txRate),
       fun k => if k = key then some ⟨currentRx, currentTx, currentTime⟩ else hist k)
    else
      let cachedRxDiff : ℚ :=
        if history.lastRx ≤ currentRx then (currentRx : ℚ) - (history.lastRx : ℚ)
        else (currentRx : ℚ)
      let cachedTxDiff : ℚ :=
        if history.lastTx ≤ currentTx then (currentTx : ℚ) - (history.lastTx : ℚ)
        else (currentTx : ℚ)
      let cachedTimeDiff : ℚ := if timeDiff = 0 then 1 else timeDiff
      ((jsRound (cachedRxDiff * 8 / cachedTimeDiff),
        jsRound (cachedTxDiff * 8 / cachedTimeDiff)), hist)

/-- One row of `/queue/simple/print` after per-row field extraction.  The
string lexing done on each row by `getQueueStatsFull` — `parseBandwidth` on
the two halves of `max-limit` (part_000 lines 314-317) and `parseInt` on the
halves of `bytes` (lines 322-323) — is abstracted into the numeric fields
`upBps`, `downBps`, `bytesUp`, `bytesDown`; the claims under proof concern
aggregation and truncation, not lexing. -/
structure QueueRow where
  name : String
  disabled : String
  upBps : Nat
  downBps : Nat
  bytesUp : Nat
  bytesDown : Nat
deriving DecidableEq, Repr

/-- An entry pushed onto `queueList` (part_000 lines 325-336); the
display-formatted strings (`formatBitsPerSecond`, `formatBytes`) are kept as
the underlying numbers they format. -/
structure QueueEntry where
  name : String
  maxLimitUpBps : Nat
  maxLimitDownBps : Nat
  bytesUp : Nat
  bytesDown : Nat
  disabled : Bool
deriving DecidableEq, Repr

/-- The record returned by `getQueueStatsFull` (part_000 lines 340-347), with
the two formatted bandwidth totals kept as numbers. -/
structure QueueStatsResult where
  total : Nat
  active : Nat
  disabled : Nat
  totalBandwidthUpBps : Nat
  totalBandwidthDownBps : Nat
  queues : List QueueEntry
deriving DecidableEq, Repr

/-- The accumulation loop of `getQueueStatsFull` over
`limitedQueues = queues.slice(0, 20)` (part_000 lines 308-337): the running
`(activeQueues, totalBandwidthUp, totalBandwidthDown, queueList)`. -/
def queueLoop (limitedQueues : List QueueRow) : Nat × Nat × Nat × List QueueEntry :=
  limitedQueues.foldl
    (fun acc queue =>
      (acc.1 + (if queue.disabled ≠ "true" then 1 else 0),
       acc.2.1 + queue.upBps,
       acc.2.2.1 + queue.downBps,
       acc.2.2.2 ++ [{ name := queue.name, maxLimitUpBps := queue.upBps,
                       maxLimitDownBps := queue.downBps, bytesUp := queue.bytesUp,
                       bytesDown := queue.bytesDown,
                       disabled := queue.disabled = "true" }]))
    (0, 0, 0, [])

/-- The computation of `getQueueStatsFull(conn, config)` (part_000
lines 293-355).  The argument is the outcome of `/queue/simple/print`; `none`
is a rejected query, answered by the catch at lines 351-353 with the zeroed
fallback record.  The surrounding cache check and store (lines 294-295 and
349) are not part of this computation. -/
def getQueueStatsFull (queues : Option (List QueueRow)) : QueueStatsResult :=
  match queues with
  | none =>
    { total := 0, active := 0, disabled := 0,
      totalBandwidthUpBps := 0, totalBandwidthDownBps := 0, queues := [] }
  | some qs =>
    let totalQueues := qs.length
    let limitedQueues := qs.take 20
    let acc := queueLoop limitedQueues
    { total := totalQueues, active := acc.1, disabled := totalQueues - acc.1,
      totalBandwidthUpBps := acc.2.1, totalBandwidthDownBps := acc.2.2.1,
      queues := acc.2.2.2 }

/-- The parsed result of a successful `/system/resource/print`
(part_000 lines 218-232).  The per-field `parseInt` and defaulting is absorbed
into the record the environment supplies. -/
structure Resources where
  cpu : Nat
  memoryTotal : Nat
  memoryFree : Nat
  memoryUsed : Nat
  memoryUsage : Nat
  uptime : String
  version : String
  board : String
deriving DecidableEq, Repr

/-- The record returned by `getActiveUsers` (part_000 line 253). -/
structure Users where
  dhcp : Nat
  hotspot : Nat
  pppoe : Nat
  total : Nat
deriving DecidableEq, Repr

/-- The record returned by `getQueueStatsLight` (part_000 line 283). -/
structure QueuesLight where
  total : Nat
  active : Nat
  disabled : Nat
deriving DecidableEq, Repr

/-- Adapter outcomes for one device during one poll cycle: `connect` is the
handle produced by `conn.connect()` (`none` = rejected), `closeOk` is the
best-effort close outcome, and each query field is `none` exactly when the
corresponding `conn.write` rejects (or, for resources, returns no rows —
part_000 line 214). -/
structure DeviceEnv where
  connect : Option Nat
  closeOk : Bool
  resources : Option Resources
  users : Option Nat
  queuesLight : Option (Nat × Nat)
deriving DecidableEq, Repr

/-- The overview `DeviceSnapshot` built by the `/api/routers` handler
(part_000 lines 486-525).  The success path spreads the resource record over
the response; the spread source is carried in `resources` (it is `none` both
for the offline snapshot and when the resource sub-query failed, in which case
the literal `{cpu: 0, memoryUsage: 0, uptime: "0s"}` fallback is spread
instead). -/
structure Snapshot where
  id : Nat
  name : String
  ip : String
  status : String
  error : Option String
  cpu : Nat
  memoryUsage : Nat
  uptime : String
  activeUsers : Nat
  totalQueues : Nat
  activeQueues : Nat
  currentBandwidth : String
  resources : Option Resources
deriving DecidableEq, Repr

/-- The process-wide mutable state: `connectionPool.pools` plus
`connectionPool.cacheData`.  The single heterogeneous `cacheData` map is split
here by payload type; each piece keeps the `(routerId, endpoint)` keying, and
the three pieces are only ever addressed at the pairwise-distinct endpoints
`"resources"`, `"queues_light"` and `"overview"`, so the split map is
equivalent to the JS map. -/
structure AggState where
  pool : Pool
  resCache : Cache Resources
  qlCache : Cache QueuesLight
  ovCache : Cache Snapshot

/-- The empty initial state: no pooled sessions, no cache entries. -/
def emptyAgg : AggState :=
  { pool := fun _ => none, resCache := fun _ => none,
    qlCache := fun _ => none, ovCache := fun _ => none }

/-- `getRouterResources(conn, config)` (part_000 lines 207-240): check the
cache under `"resources"`, else run the query; a rejected or empty query is
caught and yields `null` (`none` here), and only a successful result is
cached. -/
def getRouterResources (st : AggState) (config : Config) (env : DeviceEnv)
    (now : Nat) : Option Resources × AggState :=
  match getFromCache st.resCache config.id "resources" now with
  | some cached => (some cached, st)
  | none =>
    match env.resources with
    | some result =>
      (some result,
       { st with resCache := setCache st.resCache config.id "resources" result now })
    | none => (none, st)

/-- `getActiveUsers(conn, config)` (part_000 lines 243-258): the count of
running pppoe-in interfaces, zeros when the query rejects; never cached. -/
def getActiveUsers (env : DeviceEnv) : Users :=
  match env.users with
  | some pppoeCount => { dhcp := 0, hotspot := 0, pppoe := pppoeCount, total := pppoeCount }
  | none => { dhcp := 0, hotspot := 0, pppoe := 0, total := 0 }

/-- `getQueueStatsLight(conn, config)` (part_000 lines 261-290): cached under
`"queues_light"`; the two count-only queries are summarised by the environment
as `(total, active)`; a rejection is caught and yields zeros, uncached. -/
def getQueueStatsLight (st : AggState) (config : Config) (env : DeviceEnv)
    (now : Nat) : QueuesLight × AggState :=
  match getFromCache st.qlCache config.id "queues_light" now with
  | some cached => (cached, st)
  | none =>
    match env.queuesLight with
    | some ta =>
      let result : QueuesLight := { total := ta.1, active := ta.2, disabled := ta.1 - ta.2 }
      (result,
       { st with qlCache := setCache st.qlCache config.id "queues_light" result now })
    | none => ({ total := 0, active := 0, disabled := 0 }, st)

/-- The snapshot returned when `getConnection` yields `null`
(part_000 lines 486-493). -/
def offlineSnapshot (config : Config) : Snapshot :=
  { id := config.id, name := config.name, ip := config.ip, status := "offline",
    error := some "Connection timeout", cpu := 0, memoryUsage := 0, uptime := "0s",
    activeUsers := 0, totalQueues := 0, activeQueues := 0,
    currentBandwidth := "0 bps", resources := none }

/-- One branch of the `/api/routers` fan-out (part_000 lines 480-527).  The
catch at lines 517-526 is unreachable: every awaited helper catches its own
protocol failures and `releaseConnection` cannot reject, so no exception
escapes into it; it is therefore not a reachable branch of the embedding. -/
def overviewDevice (config : Config) (env : DeviceEnv) (now : Nat)
    (st : AggState) : Snapshot × AggState :=
  match getFromCache st.ovCache config.id "overview" now with
  | some cached => (cached, st)
  | none =>
    let gc := getConnection st.pool config now env.connect env.closeOk
    let st1 : AggState := { st with pool := gc.pool }
    match gc.conn with
    | none => (offlineSnapshot config, st1)
    | some _ =>
      let rr := getRouterResources st1 config env now
      let users := getActiveUsers env
      let ql := getQueueStatsLight rr.2 config env now
      let st3 : AggState := { ql.2 with pool := releaseConnection ql.2.pool config now }
      let result : Snapshot :=
        { id := config.id, name := config.name, ip := config.ip
          status := if rr.1.isSome then "online" else "error"
          error := none
          cpu := (rr.1.map Resources.cpu).getD 0
          memoryUsage := (rr.1.map Resources.memoryUsage).getD 0
          uptime := (rr.1.map Resources.uptime).getD "0s"
          activeUsers := users.total
          totalQueues := ql.1.total
          activeQueues := ql.1.active
          currentBandwidth := "0 bps"
          resources := rr.1 }
      (result, { st3 with ovCache := setCache st3.ovCache config.id "overview" result now })

/-- `/api/routers` (part_000 lines 477-535): `Promise.all` over
`routerConfigs.map`.  The concurrent branches are serialised left to right;
each branch only reads and writes pool and cache keys whose router id is its
own `config.id`, so for configurations with pairwise-distinct ids the
serialisation order is immaterial (proved below as `fleetOverview_decomp`).
`env` maps a router id to the adapter outcomes of that device for the cycle. -/
def fleetOverview (configs : List Config) (env : Nat → DeviceEnv) (now : Nat)
    (st : AggState) : List Snapshot × AggState :=
  match configs with
  | [] => ([], st)
  | config :: rest =>
    let r := overviewDevice config (env config.id) now st
    let r2 := fleetOverview rest env now r.2
    (r.1 :: r2.1, r2.2)

/-- Agreement of two states on every pool and cache key belonging to one
router id.  `overviewDevice` for a config with that id reads and writes only
such keys. -/
def agreesOn (rid : Nat) (st st2 : AggState) : Prop :=
  (∀ ip, st.pool (rid, ip) = st2.pool (rid, ip)) ∧
  (∀ ep, st.resCache (rid, ep) = st2.resCache (rid, ep)) ∧
  (∀ ep, st.qlCache (rid, ep) = st2.qlCache (rid, ep)) ∧
  (∀ ep, st.ovCache (rid, ep) = st2.ovCache (rid, ep))

/-! ### Helper lemmas -/

/-- `Math.round` of an integer value is that integer. -/
theorem jsRound_intCast (n : ℤ) : jsRound (n : ℚ) = n := by
  unfold jsRound
  rw [Int.floor_eq_iff]
  constructor <;> push_cast <;> linarith

/-- `Math.round` of a nonnegative value is nonnegative. -/
theorem jsRound_nonneg (q : ℚ) (h : 0 ≤ q) : 0 ≤ jsRound q := by
  unfold jsRound
  exact Int.le_floor.mpr (by push_cast; linarith)

/-- Every configured cache timeout is at most 10 s (the largest entry of the
`cacheTimeouts` table is `queues: 10000`). -/
theorem cacheTimeouts_le (endpoint : String) : cacheTimeouts endpoint ≤ 10000 := by
  unfold cacheTimeouts
  split_ifs <;> omega

/-- Reading the key just written: a hit below the endpoint timeout, a miss at
or above it. -/
theorem getFromCache_setCache_same {α : Type} (c : Cache α) (rid : Nat) (ep : String)
    (v : α) (now later : Nat) :
    getFromCache (setCache c rid ep v now) rid ep later
      = if later - now < cacheTimeouts ep then some v else none := by
  unfold getFromCache setCache
  rw [if_pos rfl]

/-! ### Claim theorems -/

/-- C4: `set` then `get` on the same `(deviceId, category)` key returns the
stored value exactly while the elapsed time is strictly below the category
TTL and misses once the TTL has elapsed; the write overwrites the key and
leaves every other key untouched; the TTL table is overview 3 s,
bandwidth 2 s, queues 10 s, interfaces 5 s, resources 3 s, default 5 s. -/
theorem cache_set_get {α : Type} (c : Cache α) (rid : Nat) (ep : String) (v : α)
    (now later : Nat) :
    (later - now < cacheTimeouts ep →
      getFromCache (setCache c rid ep v now) rid ep later = some v)
    ∧ (cacheTimeouts ep ≤ later - now →
      getFromCache (setCache c rid ep v now) rid ep later = none)
    ∧ setCache c rid ep v now (rid, ep) = some ⟨v, now⟩
    ∧ (∀ rid2 ep2, (rid2, ep2) ≠ (rid, ep) →
      getFromCache (setCache c rid ep v now) rid2 ep2 later
        = getFromCache c rid2 ep2 later)
    ∧ cacheTimeouts "overview" = 3000 ∧ cacheTimeouts "bandwidth" = 2000
    ∧ cacheTimeouts "queues" = 10000 ∧ cacheTimeouts "interfaces" = 5000
    ∧ cacheTimeouts "resources" = 3000
    ∧ (ep ≠ "overview" → ep ≠ "bandwidth" → ep ≠ "queues" → ep ≠ "interfaces" →
       ep ≠ "resources" → cacheTimeouts ep = 5000) := by
  refine ⟨?_, ?_, ?_, ?_, rfl, rfl, rfl, rfl, rfl, ?_⟩
  · intro h
    rw [getFromCache_setCache_same, if_pos h]
  · intro h
    rw [getFromCache_setCache_same, if_neg (by omega)]
  · unfold setCache
    rw [if_pos rfl]
  · intro rid2 ep2 hne
    unfold getFromCache setCache
    rw [if_neg hne]
  · intro h1 h2 h3 h4 h5
    simp [cacheTimeouts, h1, h2, h3, h4, h5]

theorem cache_set_get_witness :
    (1000 - 0 < cacheTimeouts "overview")
    ∧ getFromCache (setCache (fun _ => none : Cache Nat) 1 "overview" 42 0) 1 "overview" 1000
        = some 42 :=
  ⟨by decide, (cache_set_get (fun _ => none) 1 "overview" 42 0 1000).1 (by decide)⟩

/-- C5: an entry whose age strictly exceeds the 30 s hard ceiling is never a
`getFromCache` hit, whatever the endpoint: every timeout in the table is at
most 10 s, so the freshness test already fails well below the ceiling (and
the periodic `cleanup` additionally deletes such entries). -/
theorem cache_hard_ceiling {α : Type} (c : Cache α) (rid : Nat) (ep : String)
    (now : Nat) (e : CEntry α) (he : c (rid, ep) = some e)
    (hold : 30000 < now - e.timestamp) :
    getFromCache c rid ep now = none := by
  unfold getFromCache
  rw [he]
  show (if now - e.timestamp < cacheTimeouts ep then some e.data else none) = none
  have h10 := cacheTimeouts_le ep
  rw [if_neg (by omega)]

theorem cache_hard_ceiling_witness :
    ((fun k => if k = ((1 : Nat), "queues") then some (⟨7, 0⟩ : CEntry Nat) else none)
        ((1 : Nat), "queues") = some (⟨7, 0⟩ : CEntry Nat))
    ∧ (30000 < 40000 - (⟨7, 0⟩ : CEntry Nat).timestamp)
    ∧ getFromCache
        (fun k => if k = ((1 : Nat), "queues") then some (⟨7, 0⟩ : CEntry Nat) else none)
        1 "queues" 40000 = none :=
  ⟨by decide, by decide,
   cache_hard_ceiling _ 1 "queues" 40000 ⟨7, 0⟩ (by decide) (by decide)⟩

/-- C6: `calculateRates` on an unseen `(routerId, interfaceName)` key returns
`{rxRate: 0, txRate: 0}` whatever the counters, and seeds the traffic history
with the current counters and timestamp. -/
theorem calculateRates_first_sample (hist : TrafficHistory) (rid : Nat) (ifc : String)
    (rx tx t : Nat) (h : hist (rid, ifc) = none) :
    calculateRates hist rid ifc rx tx t
      = ((0, 0), fun k => if k = (rid, ifc) then some ⟨rx, tx, t⟩ else hist k) := by
  simp only [calculateRates, h]

theorem calculateRates_first_sample_witness :
    ((fun _ => none : TrafficHistory) ((1 : Nat), "ether1") = none)
    ∧ calculateRates (fun _ => none) 1 "ether1" 100 200 5
        = ((0, 0),
           fun k => if k = ((1 : Nat), "ether1") then some ⟨100, 200, 5⟩
                    else (fun _ => none : TrafficHistory) k) :=
  ⟨rfl, calculateRates_first_sample _ 1 "ether1" 100 200 5 rfl⟩

/-- Characterisation of the too-soon branch of `calculateRates` (part_000
lines 382-390): the stored sample is left untouched and the returned rates
divide the delta against the stored counters by the new elapsed time, with a
zero elapsed time replaced by one second. -/
theorem calculateRates_slow (hist : TrafficHistory) (rid : Nat) (ifc : String)
    (rx tx t : Nat) (h : RateSample) (hh : hist (rid, ifc) = some h)
    (hlt : ¬ ((3 / 2 : ℚ) ≤ ((t : ℚ) - (h.lastTime : ℚ)) / 1000)) :
    calculateRates hist rid ifc rx tx t
      = ((jsRound ((if h.lastRx ≤ rx then (rx : ℚ) - (h.lastRx : ℚ) else (rx : ℚ)) * 8 /
            (if ((t : ℚ) - (h.lastTime : ℚ)) / 1000 = 0 then 1
             else ((t : ℚ) - (h.lastTime : ℚ)) / 1000)),
          jsRound ((if h.lastTx ≤ tx then (tx : ℚ) - (h.lastTx : ℚ) else (tx : ℚ)) * 8 /
            (if ((t : ℚ) - (h.lastTime : ℚ)) / 1000 = 0 then 1
             else ((t : ℚ) - (h.lastTime : ℚ)) / 1000))), hist) := by
  simp only [calculateRates, hh, if_neg hlt]

/-- `Math.round` applied to an integer counter delta times eight over one. -/
theorem jsRound_diff_mul8 (a b : Nat) :
    jsRound ((if b ≤ a then (a : ℚ) - (b : ℚ) else (a : ℚ)) * 8 / 1)
      = (if b ≤ a then (a : ℤ) - (b : ℤ) else (a : ℤ)) * 8 := by
  rcases le_or_lt b a with hle | hgt
  · rw [if_pos hle, if_pos hle]
    have hcast : ((a : ℚ) - (b : ℚ)) * 8 / 1 = ((((a : ℤ) - (b : ℤ)) * 8 : ℤ) : ℚ) := by
      push_cast
      ring
    rw [hcast, jsRound_intCast]
  · rw [if_neg (not_le.mpr hgt), if_neg (not_le.mpr hgt)]
    have hcast : (a : ℚ) * 8 / 1 = (((a : ℤ) * 8 : ℤ) : ℚ) := by
      push_cast
      ring
    rw [hcast, jsRound_intCast]

/-- C7: with a stored sample, an elapsed time meeting the 1.5 s minimum
interval, and a current rx counter strictly below the stored one, the delta is
taken as the raw current counter: the rx rate is exactly
`round(currentRx * 8 / elapsedSeconds)`, a nonnegative value on which the
outer `max(0, _)` clamp is inert. -/
theorem calculateRates_counter_reset (hist : TrafficHistory) (rid : Nat) (ifc : String)
    (rx tx t : Nat) (h : RateSample) (hh : hist (rid, ifc) = some h)
    (helapsed : h.lastTime + 1500 ≤ t) (hreset : rx < h.lastRx) :
    (calculateRates hist rid ifc rx tx t).1.1
        = jsRound ((rx : ℚ) * 8 / (((t : ℚ) - (h.lastTime : ℚ)) / 1000))
    ∧ 0 ≤ (calculateRates hist rid ifc rx tx t).1.1 := by
  have hcast : ((h.lastTime : ℚ)) + 1500 ≤ (t : ℚ) := by exact_mod_cast helapsed
  have htd : (3 / 2 : ℚ) ≤ ((t : ℚ) - (h.lastTime : ℚ)) / 1000 := by linarith
  have htdpos : (0 : ℚ) < ((t : ℚ) - (h.lastTime : ℚ)) / 1000 := by linarith
  have hnotle : ¬ (h.lastRx ≤ rx) := by omega
  have hval : (calculateRates hist rid ifc rx tx t).1.1
      = max 0 (jsRound ((rx : ℚ) * 8 / (((t : ℚ) - (h.lastTime : ℚ)) / 1000))) := by
    simp only [calculateRates, hh, if_pos htd, if_neg hnotle]
  have hnn : 0 ≤ jsRound ((rx : ℚ) * 8 / (((t : ℚ) - (h.lastTime : ℚ)) / 1000)) :=
    jsRound_nonneg _ (div_nonneg (by positivity) (le_of_lt htdpos))
  rw [hval, max_eq_right hnn]
  exact ⟨rfl, hnn⟩

theorem calculateRates_counter_reset_witness :
    ((fun k => if k = ((1 : Nat), "ether1") then some (⟨5000, 5000, 0⟩ : RateSample)
               else none) ((1 : Nat), "ether1") = some (⟨5000, 5000, 0⟩ : RateSample))
    ∧ ((⟨5000, 5000, 0⟩ : RateSample).lastTime + 1500 ≤ 2000)
    ∧ (200 < (⟨5000, 5000, 0⟩ : RateSample).lastRx)
    ∧ (calculateRates
        (fun k => if k = ((1 : Nat), "ether1") then some ⟨5000, 5000, 0⟩ else none)
        1 "ether1" 200 200 2000).1.1 = 800 := by
  refine ⟨by decide, by decide, by decide, ?_⟩
  have h := calculateRates_counter_reset
      (fun k => if k = ((1 : Nat), "ether1") then some ⟨5000, 5000, 0⟩ else none)
      1 "ether1" 200 200 2000 ⟨5000, 5000, 0⟩ (by decide) (by decide) (by decide)
  rw [h.1]
  norm_num [jsRound]

/-- C8: with a stored sample and an elapsed time strictly below the 1.5 s
minimum interval, `calculateRates` leaves the stored sample (counters and
timestamp) untouched and returns the delta against the stored counters
reinterpreted over the new elapsed time, committing nothing. -/
theorem calculateRates_too_soon (hist : TrafficHistory) (rid : Nat) (ifc : String)
    (rx tx t : Nat) (h : RateSample) (hh : hist (rid, ifc) = some h)
    (hsoon : t < h.lastTime + 1500) :
    (calculateRates hist rid ifc rx tx t).2 = hist
    ∧ (calculateRates hist rid ifc rx tx t).1.1
        = jsRound ((if h.lastRx ≤ rx then (rx : ℚ) - (h.lastRx : ℚ) else (rx : ℚ)) * 8 /
            (if ((t : ℚ) - (h.lastTime : ℚ)) / 1000 = 0 then 1
             else ((t : ℚ) - (h.lastTime : ℚ)) / 1000))
    ∧ (calculateRates hist rid ifc rx tx t).1.2
        = jsRound ((if h.lastTx ≤ tx then (tx : ℚ) - (h.lastTx : ℚ) else (tx : ℚ)) * 8 /
            (if ((t : ℚ) - (h.lastTime : ℚ)) / 1000 = 0 then 1
             else ((t : ℚ) - (h.lastTime : ℚ)) / 1000)) := by
  have hcast : (t : ℚ) < (h.lastTime : ℚ) + 1500 := by exact_mod_cast hsoon
  have hlt : ¬ ((3 / 2 : ℚ) ≤ ((t : ℚ) - (h.lastTime : ℚ)) / 1000) := by
    intro hc
    linarith
  rw [calculateRates_slow hist rid ifc rx tx t h hh hlt]
  exact ⟨rfl, rfl, rfl⟩

theorem calculateRates_too_soon_witness :
    ((fun k => if k = ((1 : Nat), "ether1") then some (⟨1000, 2000, 0⟩ : RateSample)
               else none) ((1 : Nat), "ether1") = some (⟨1000, 2000, 0⟩ : RateSample))
    ∧ (1000 < (⟨1000, 2000, 0⟩ : RateSample).lastTime + 1500)
    ∧ (calculateRates
        (fun k => if k = ((1 : Nat), "ether1") then some ⟨1000, 2000, 0⟩ else none)
        1 "ether1" 1500 2600 1000).2
      = (fun k => if k = ((1 : Nat), "ether1") then some ⟨1000, 2000, 0⟩ else none)
    ∧ (calculateRates
        (fun k => if k = ((1 : Nat), "ether1") then some ⟨1000, 2000, 0⟩ else none)
        1 "ether1" 1500 2600 1000).1.1 = 4000 := by
  have h := calculateRates_too_soon
      (fun k => if k = ((1 : Nat), "ether1") then some ⟨1000, 2000, 0⟩ else none)
      1 "ether1" 1500 2600 1000 ⟨1000, 2000, 0⟩ (by decide) (by decide)
  refine ⟨by decide, by decide, h.1, ?_⟩
  rw [h.2.1]
  norm_num [jsRound]

/-- C10: `calculateRates` is total with finite integer results on every path;
in particular, in the too-soon branch a zero elapsed time is replaced by a
one-second divisor, so a repeat call at the very timestamp of the stored
sample returns the counter delta times eight rather than a division by
zero, and commits nothing. -/
theorem calculateRates_zero_elapsed (hist : TrafficHistory) (rid : Nat) (ifc : String)
    (rx tx : Nat) (h : RateSample) (hh : hist (rid, ifc) = some h) :
    (calculateRates hist rid ifc rx tx h.lastTime).1.1
        = (if h.lastRx ≤ rx then (rx : ℤ) - (h.lastRx : ℤ) else (rx : ℤ)) * 8
    ∧ (calculateRates hist rid ifc rx tx h.lastTime).1.2
        = (if h.lastTx ≤ tx then (tx : ℤ) - (h.lastTx : ℤ) else (tx : ℤ)) * 8
    ∧ (calculateRates hist rid ifc rx tx h.lastTime).2 = hist := by
  have hlt : ¬ ((3 / 2 : ℚ) ≤ (((h.lastTime : Nat) : ℚ) - (h.lastTime : ℚ)) / 1000) := by
    norm_num
  have heq := calculateRates_slow hist rid ifc rx tx h.lastTime h hh hlt
  refine ⟨?_, ?_, by rw [heq]⟩
  · rw [heq]
    simp only [sub_self, zero_div, if_pos]
    exact jsRound_diff_mul8 rx h.lastRx
  · rw [heq]
    simp only [sub_self, zero_div, if_pos]
    exact jsRound_diff_mul8 tx h.lastTx

theorem calculateRates_zero_elapsed_witness :
    ((fun k => if k = ((1 : Nat), "ether1") then some (⟨100, 300, 777⟩ : RateSample)
               else none) ((1 : Nat), "ether1") = some (⟨100, 300, 777⟩ : RateSample))
    ∧ (calculateRates
        (fun k => if k = ((1 : Nat), "ether1") then some ⟨100, 300, 777⟩ else none)
        1 "ether1" 150 200 (⟨100, 300, 777⟩ : RateSample).lastTime).1.1 = 400
    ∧ (calculateRates
        (fun k => if k = ((1 : Nat), "ether1") then some ⟨100, 300, 777⟩ else none)
        1 "ether1" 150 200 (⟨100, 300, 777⟩ : RateSample).lastTime).1.2 = 1600 := by
  have h := calculateRates_zero_elapsed
      (fun k => if k = ((1 : Nat), "ether1") then some ⟨100, 300, 777⟩ else none)
      1 "ether1" 150 200 ⟨100, 300, 777⟩ (by decide)
  refine ⟨by decide, ?_, ?_⟩
  · rw [h.1]
    norm_num
  · rw [h.2.1]
    norm_num

/-- C3: if the pooled entry for the device is younger than the 120 s idle
window, `getConnection` returns the very pooled handle, bumps `lastUsed` to
now and `useCount` by one, touches no other key and never invokes the adapter
connect; otherwise the stale entry is closed best-effort (the outcome of the
close is immaterial) and removed before a fresh connect is attempted, so the
key afterwards holds exactly the fresh entry, or nothing when connect fails. -/
theorem getConnection_reuse (p : Pool) (config : Config) (now : Nat)
    (connectResult : Option Nat) (closeOk : Bool) (e : PoolEntry)
    (he : p (config.id, config.ip) = some e) :
    (now - e.lastUsed < 120000 →
      (getConnection p config now connectResult closeOk).conn = some e.connection
      ∧ (getConnection p config now connectResult closeOk).connectInvoked = false
      ∧ (getConnection p config now connectResult closeOk).pool (config.id, config.ip)
          = some { e with lastUsed := now, useCount := e.useCount + 1 }
      ∧ (∀ k, k ≠ (config.id, config.ip) →
          (getConnection p config now connectResult closeOk).pool k = p k))
    ∧ (120000 ≤ now - e.lastUsed →
      (getConnection p config now connectResult closeOk).closed = [e.connection]
      ∧ (getConnection p config now connectResult closeOk).connectInvoked = true
      ∧ (getConnection p config now connectResult closeOk).pool (config.id, config.ip)
          = connectResult.map
              (fun handle => { connection := handle, lastUsed := now, useCount := 1,
                               config := config })
      ∧ getConnection p config now connectResult closeOk
          = getConnection p config now connectResult true) := by
  constructor
  · intro hlt
    simp only [getConnection, he, if_pos hlt]
    refine ⟨by trivial, by trivial, by simp, ?_⟩
    intro k hk
    rw [if_neg hk]
  · intro hge
    have hnlt : ¬ (now - e.lastUsed < 120000) := by omega
    rcases connectResult with _ | handle <;>
      simp only [getConnection, he, if_neg hnlt] <;>
      exact ⟨by trivial, by trivial, by simp, by trivial⟩

theorem getConnection_reuse_witness :
    ((fun k => if k = ((1 : Nat), "10.0.0.1")
               then some (⟨9, 0, 1, ⟨1, "a", "10.0.0.1"⟩⟩ : PoolEntry) else none)
        ((1 : Nat), "10.0.0.1") = some (⟨9, 0, 1, ⟨1, "a", "10.0.0.1"⟩⟩ : PoolEntry))
    ∧ (60000 - (⟨9, 0, 1, ⟨1, "a", "10.0.0.1"⟩⟩ : PoolEntry).lastUsed < 120000)
    ∧ (getConnection
        (fun k => if k = ((1 : Nat), "10.0.0.1")
                  then some ⟨9, 0, 1, ⟨1, "a", "10.0.0.1"⟩⟩ else none)
        ⟨1, "a", "10.0.0.1"⟩ 60000 (some 10) false).conn = some 9
    ∧ (getConnection
        (fun k => if k = ((1 : Nat), "10.0.0.1")
                  then some ⟨9, 0, 1, ⟨1, "a", "10.0.0.1"⟩⟩ else none)
        ⟨1, "a", "10.0.0.1"⟩ 60000 (some 10) false).connectInvoked = false
    ∧ (getConnection
        (fun k => if k = ((1 : Nat), "10.0.0.1")
                  then some ⟨9, 0, 1, ⟨1, "a", "10.0.0.1"⟩⟩ else none)
        ⟨1, "a", "10.0.0.1"⟩ 60000 (some 10) false).pool ((1 : Nat), "10.0.0.1")
        = some ⟨9, 60000, 2, ⟨1, "a", "10.0.0.1"⟩⟩ := by
  have h := (getConnection_reuse
      (fun k => if k = ((1 : Nat), "10.0.0.1")
                then some ⟨9, 0, 1, ⟨1, "a", "10.0.0.1"⟩⟩ else none)
      ⟨1, "a", "10.0.0.1"⟩ 60000 (some 10) false
      ⟨9, 0, 1, ⟨1, "a", "10.0.0.1"⟩⟩ (by decide)).1 (by decide)
  exact ⟨by decide, by decide, h.1, h.2.1, h.2.2.1⟩

/-- Unfolding of the `getQueueStatsFull` accumulation loop from an arbitrary
accumulator: active count, limit sums and display list over the processed
rows. -/
theorem queueLoop_go (qs : List QueueRow) (a b c : Nat) (l : List QueueEntry) :
    qs.foldl
      (fun acc queue =>
        (acc.1 + (if queue.disabled ≠ "true" then 1 else 0),
         acc.2.1 + queue.upBps,
         acc.2.2.1 + queue.downBps,
         acc.2.2.2 ++ [{ name := queue.name, maxLimitUpBps := queue.upBps,
                         maxLimitDownBps := queue.downBps, bytesUp := queue.bytesUp,
                         bytesDown := queue.bytesDown,
                         disabled := queue.disabled = "true" }]))
      (a, b, c, l)
      = (a + (qs.filter (fun q => q.disabled ≠ "true")).length,
         b + (qs.map QueueRow.upBps).sum,
         c + (qs.map QueueRow.downBps).sum,
         l ++ qs.map (fun q => ({ name := q.name, maxLimitUpBps := q.upBps,
                                  maxLimitDownBps := q.downBps, bytesUp := q.bytesUp,
                                  bytesDown := q.bytesDown,
                                  disabled := q.disabled = "true" } : QueueEntry))) := by
  induction qs generalizing a b c l with
  | nil => simp
  | cons q rest ih =>
    simp only [List.foldl_cons, ih, List.filter_cons, List.map_cons, List.sum_cons]
    by_cases hq : q.disabled = "true"
    · simp [hq, Nat.add_assoc]
    · simp [hq, Nat.add_assoc, Nat.add_comm 1]

/-- Closed form of `queueLoop`. -/
theorem queueLoop_spec (qs : List QueueRow) :
    queueLoop qs
      = ((qs.filter (fun q => q.disabled ≠ "true")).length,
         (qs.map QueueRow.upBps).sum,
         (qs.map QueueRow.downBps).sum,
         qs.map (fun q => ({ name := q.name, maxLimitUpBps := q.upBps,
                             maxLimitDownBps := q.downBps, bytesUp := q.bytesUp,
                             bytesDown := q.bytesDown,
                             disabled := q.disabled = "true" } : QueueEntry))) := by
  have h := queueLoop_go qs 0 0 0 []
  simpa [queueLoop] using h

/-- C9 counterexample: on 21 enabled queue rows with a 1 bps up and down
limit each, the full untruncated set has 21 active rows and limit sum 21, but
the result reports `active = 20` and bandwidth sums of 20 — the totals other
than `total` are computed after the `slice(0, 20)` truncation, refuting the
claim that they cover the full set. -/
theorem queue_totals_truncated_cex :
    (getQueueStatsFull
        (some (List.replicate 21 (⟨"q", "false", 1, 1, 0, 0⟩ : QueueRow)))).total = 21
    ∧ (getQueueStatsFull
        (some (List.replicate 21 (⟨"q", "false", 1, 1, 0, 0⟩ : QueueRow)))).active = 20
    ∧ (getQueueStatsFull
        (some (List.replicate 21 (⟨"q", "false", 1, 1, 0, 0⟩ : QueueRow)))).totalBandwidthUpBps
        = 20
    ∧ ((List.replicate 21 (⟨"q", "false", 1, 1, 0, 0⟩ : QueueRow)).filter
        (fun q => q.disabled ≠ "true")).length = 21
    ∧ ((List.replicate 21 (⟨"q", "false", 1, 1, 0, 0⟩ : QueueRow)).map
        QueueRow.upBps).sum = 21 := by
  decide

/-- C9 amended: the displayed queue list is the first 20 rows, and the total
queue count is taken over the full set, but the active and disabled counts
and the aggregate up and down limit sums are computed over only the first 20
rows (the truncated set), not the full set. -/
theorem queue_stats_full_amended (qs : List QueueRow) :
    (getQueueStatsFull (some qs)).total = qs.length
    ∧ (getQueueStatsFull (some qs)).active
        = ((qs.take 20).filter (fun q => q.disabled ≠ "true")).length
    ∧ (getQueueStatsFull (some qs)).disabled
        = qs.length - ((qs.take 20).filter (fun q => q.disabled ≠ "true")).length
    ∧ (getQueueStatsFull (some qs)).totalBandwidthUpBps
        = ((qs.take 20).map QueueRow.upBps).sum
    ∧ (getQueueStatsFull (some qs)).totalBandwidthDownBps
        = ((qs.take 20).map QueueRow.downBps).sum
    ∧ (getQueueStatsFull (some qs)).queues
        = (qs.take 20).map (fun q =>
            ({ name := q.name, maxLimitUpBps := q.upBps,
               maxLimitDownBps := q.downBps, bytesUp := q.bytesUp,
               bytesDown := q.bytesDown,
               disabled := q.disabled = "true" } : QueueEntry))
    ∧ (getQueueStatsFull (some qs)).queues.length = min qs.length 20 := by
  have hq := queueLoop_spec (qs.take 20)
  simp only [getQueueStatsFull, hq]
  refine ⟨by trivial, by trivial, by trivial, by trivial, by trivial, by trivial, ?_⟩
  simp [min_comm]

theorem queue_stats_full_amended_witness :
    (getQueueStatsFull
        (some (List.replicate 21 (⟨"r", "true", 2, 3, 0, 0⟩ : QueueRow)))).total
      = (List.replicate 21 (⟨"r", "true", 2, 3, 0, 0⟩ : QueueRow)).length
    ∧ (getQueueStatsFull
        (some (List.replicate 21 (⟨"r", "true", 2, 3, 0, 0⟩ : QueueRow)))).active
      = (((List.replicate 21 (⟨"r", "true", 2, 3, 0, 0⟩ : QueueRow)).take 20).filter
          (fun q => q.disabled ≠ "true")).length
    ∧ (getQueueStatsFull
        (some (List.replicate 21 (⟨"r", "true", 2, 3, 0, 0⟩ : QueueRow)))).totalBandwidthUpBps
      = (((List.replicate 21 (⟨"r", "true", 2, 3, 0, 0⟩ : QueueRow)).take 20).map
          QueueRow.upBps).sum :=
  ⟨(queue_stats_full_amended _).1, (queue_stats_full_amended _).2.1,
   (queue_stats_full_amended _).2.2.2.1⟩

/-! ### Frame and congruence lemmas for the aggregator -/

/-- `getFromCache` reads only its own key. -/
theorem getFromCache_congr {α : Type} (c c2 : Cache α) (rid : Nat) (ep : String)
    (now : Nat) (h : c (rid, ep) = c2 (rid, ep)) :
    getFromCache c rid ep now = getFromCache c2 rid ep now := by
  unfold getFromCache
  rw [h]

/-- The handle returned by `getConnection` depends only on the pool entry of
the device key. -/
theorem getConnection_conn_congr (p p2 : Pool) (config : Config) (now : Nat)
    (cr : Option Nat) (ok : Bool)
    (h : p (config.id, config.ip) = p2 (config.id, config.ip)) :
    (getConnection p config now cr ok).conn = (getConnection p2 config now cr ok).conn := by
  simp only [getConnection]
  rw [h]
  rcases p2 (config.id, config.ip) with _ | e
  · rcases cr with _ | hd <;> rfl
  · simp only []
    by_cases hlt : now - e.lastUsed < 120000
    · rw [if_pos hlt, if_pos hlt]
    · rw [if_neg hlt, if_neg hlt]
      rcases cr with _ | hd <;> rfl

/-- `getConnection` writes only the pool entry of the device key. -/
theorem getConnection_pool_frame (p : Pool) (config : Config) (now : Nat)
    (cr : Option Nat) (ok : Bool) (k : Nat × String)
    (hk : k ≠ (config.id, config.ip)) :
    (getConnection p config now cr ok).pool k = p k := by
  simp only [getConnection]
  rcases p (config.id, config.ip) with _ | e
  · rcases cr with _ | hd
    · rfl
    · simp [hk]
  · simp only []
    by_cases hlt : now - e.lastUsed < 120000
    · rw [if_pos hlt]
      simp [hk]
    · rw [if_neg hlt]
      rcases cr with _ | hd <;> simp [hk]

/-- `releaseConnection` writes only the pool entry of the device key. -/
theorem releaseConnection_frame (p : Pool) (config : Config) (now : Nat)
    (k : Nat × String) (hk : k ≠ (config.id, config.ip)) :
    releaseConnection p config now k = p k := by
  simp [releaseConnection, hk]

/-- `getRouterResources` never touches the pool. -/
theorem getRouterResources_pool (st : AggState) (config : Config) (env : DeviceEnv)
    (now : Nat) : (getRouterResources st config env now).2.pool = st.pool := by
  unfold getRouterResources
  rcases getFromCache st.resCache config.id "resources" now with _ | r
  · rcases env.resources with _ | r2 <;> rfl
  · rfl

/-- `getRouterResources` never touches the light-queue cache. -/
theorem getRouterResources_qlCache (st : AggState) (config : Config) (env : DeviceEnv)
    (now : Nat) : (getRouterResources st config env now).2.qlCache = st.qlCache := by
  unfold getRouterResources
  rcases getFromCache st.resCache config.id "resources" now with _ | r
  · rcases env.resources with _ | r2 <;> rfl
  · rfl

/-- `getRouterResources` never touches the overview cache. -/
theorem getRouterResources_ovCache (st : AggState) (config : Config) (env : DeviceEnv)
    (now : Nat) : (getRouterResources st config env now).2.ovCache = st.ovCache := by
  unfold getRouterResources
  rcases getFromCache st.resCache config.id "resources" now with _ | r
  · rcases env.resources with _ | r2 <;> rfl
  · rfl

/-- `getRouterResources` writes the resource cache only at its own key. -/
theorem getRouterResources_resCache_frame (st : AggState) (config : Config)
    (env : DeviceEnv) (now : Nat) (k : Nat × String)
    (hk : k ≠ (config.id, "resources")) :
    (getRouterResources st config env now).2.resCache k = st.resCache k := by
  unfold getRouterResources
  rcases getFromCache st.resCache config.id "resources" now with _ | r
  · rcases env.resources with _ | r2
    · rfl
    · simp [setCache, hk]
  · rfl

/-- The value returned by `getRouterResources` depends only on the resource
cache entry of the device and the environment. -/
theorem getRouterResources_fst_congr (st st2 : AggState) (config : Config)
    (env : DeviceEnv) (now : Nat)
    (h : st.resCache (config.id, "resources") = st2.resCache (config.id, "resources")) :
    (getRouterResources st config env now).1 = (getRouterResources st2 config env now).1 := by
  unfold getRouterResources
  rw [getFromCache_congr st.resCache st2.resCache config.id "resources" now h]
  rcases getFromCache st2.resCache config.id "resources" now with _ | r
  · rcases env.resources with _ | r2 <;> rfl
  · rfl

/-- `getQueueStatsLight` never touches the pool. -/
theorem getQueueStatsLight_pool (st : AggState) (config : Config) (env : DeviceEnv)
    (now : Nat) : (getQueueStatsLight st config env now).2.pool = st.pool := by
  unfold getQueueStatsLight
  rcases getFromCache st.qlCache config.id "queues_light" now with _ | c
  · rcases env.queuesLight with _ | ta <;> rfl
  · rfl

/-- `getQueueStatsLight` never touches the resource cache. -/
theorem getQueueStatsLight_resCache (st : AggState) (config : Config) (env : DeviceEnv)
    (now : Nat) : (getQueueStatsLight st config env now).2.resCache = st.resCache := by
  unfold getQueueStatsLight
  rcases getFromCache st.qlCache config.id "queues_light" now with _ | c
  · rcases env.queuesLight with _ | ta <;> rfl
  · rfl

/-- `getQueueStatsLight` never touches the overview cache. -/
theorem getQueueStatsLight_ovCache (st : AggState) (config : Config) (env : DeviceEnv)
    (now : Nat) : (getQueueStatsLight st config env now).2.ovCache = st.ovCache := by
  unfold getQueueStatsLight
  rcases getFromCache st.qlCache config.id "queues_light" now with _ | c
  · rcases env.queuesLight with _ | ta <;> rfl
  · rfl

/-- `getQueueStatsLight` writes the light-queue cache only at its own key. -/
theorem getQueueStatsLight_qlCache_frame (st : AggState) (config : Config)
    (env : DeviceEnv) (now : Nat) (k : Nat × String)
    (hk : k ≠ (config.id, "queues_light")) :
    (getQueueStatsLight st config env now).2.qlCache k = st.qlCache k := by
  unfold getQueueStatsLight
  rcases getFromCache st.qlCache config.id "queues_light" now with _ | c
  · rcases env.queuesLight with _ | ta
    · rfl
    · simp [setCache, hk]
  · rfl

/-- The value returned by `getQueueStatsLight` depends only on the light-queue
cache entry of the device and the environment. -/
theorem getQueueStatsLight_fst_congr (st st2 : AggState) (config : Config)
    (env : DeviceEnv) (now : Nat)
    (h : st.qlCache (config.id, "queues_light") = st2.qlCache (config.id, "queues_light")) :
    (getQueueStatsLight st config env now).1 = (getQueueStatsLight st2 config env now).1 := by
  unfold getQueueStatsLight
  rw [getFromCache_congr st.qlCache st2.qlCache config.id "queues_light" now h]
  rcases getFromCache st2.qlCache config.id "queues_light" now with _ | c
  · rcases env.queuesLight with _ | ta <;> rfl
  · rfl

/-- Every pool key touched by `overviewDevice` belongs to its own device. -/
theorem overviewDevice_state_pool (config : Config) (env : DeviceEnv) (now : Nat)
    (st : AggState) (k : Nat × String) (hk : k ≠ (config.id, config.ip)) :
    (overviewDevice config env now st).2.pool k = st.pool k := by
  rcases hov : getFromCache st.ovCache config.id "overview" now with _ | cached
  · rcases hconn : (getConnection st.pool config now env.connect env.closeOk).conn with _ | hd
    · simp only [overviewDevice, hov, hconn]
      exact getConnection_pool_frame st.pool config now env.connect env.closeOk k hk
    · simp only [overviewDevice, hov, hconn]
      rw [releaseConnection_frame _ _ _ _ hk, getQueueStatsLight_pool, getRouterResources_pool]
      exact getConnection_pool_frame st.pool config now env.connect env.closeOk k hk
  · simp only [overviewDevice, hov]

/-- Every resource-cache key touched by `overviewDevice` belongs to its own
device. -/
theorem overviewDevice_state_resCache (config : Config) (env : DeviceEnv) (now : Nat)
    (st : AggState) (k : Nat × String) (hk : k ≠ (config.id, "resources")) :
    (overviewDevice config env now st).2.resCache k = st.resCache k := by
  rcases hov : getFromCache st.ovCache config.id "overview" now with _ | cached
  · rcases hconn : (getConnection st.pool config now env.connect env.closeOk).conn with _ | hd
    · simp only [overviewDevice, hov, hconn]
    · simp only [overviewDevice, hov, hconn]
      rw [getQueueStatsLight_resCache]
      exact getRouterResources_resCache_frame _ config env now k hk
  · simp only [overviewDevice, hov]

/-- Every light-queue-cache key touched by `overviewDevice` belongs to its own
device. -/
theorem overviewDevice_state_qlCache (config : Config) (env : DeviceEnv) (now : Nat)
    (st : AggState) (k : Nat × String) (hk : k ≠ (config.id, "queues_light")) :
    (overviewDevice config env now st).2.qlCache k = st.qlCache k := by
  rcases hov : getFromCache st.ovCache config.id "overview" now with _ | cached
  · rcases hconn : (getConnection st.pool config now env.connect env.closeOk).conn with _ | hd
    · simp only [overviewDevice, hov, hconn]
    · simp only [overviewDevice, hov, hconn]
      rw [getQueueStatsLight_qlCache_frame _ config env now k hk, getRouterResources_qlCache]
  · simp only [overviewDevice, hov]

/-- Every overview-cache key touched by `overviewDevice` belongs to its own
device. -/
theorem overviewDevice_state_ovCache (config : Config) (env : DeviceEnv) (now : Nat)
    (st : AggState) (k : Nat × String) (hk : k ≠ (config.id, "overview")) :
    (overviewDevice config env now st).2.ovCache k = st.ovCache k := by
  rcases hov : getFromCache st.ovCache config.id "overview" now with _ | cached
  · rcases hconn : (getConnection st.pool config now env.connect env.closeOk).conn with _ | hd
    · simp only [overviewDevice, hov, hconn]
    · simp only [overviewDevice, hov, hconn]
      rw [setCache]
      rw [if_neg hk, getQueueStatsLight_ovCache, getRouterResources_ovCache]
  · simp only [overviewDevice, hov]

/-- `overviewDevice` leaves the state of every other router id untouched. -/
theorem overviewDevice_frame (config : Config) (env : DeviceEnv) (now : Nat)
    (st : AggState) (rid : Nat) (hrid : rid ≠ config.id) :
    agreesOn rid (overviewDevice config env now st).2 st := by
  have hkey : ∀ x y : String, ((rid, x) : Nat × String) ≠ (config.id, y) := by
    intro x y hcon
    injection hcon with h1 h2
    exact hrid h1
  refine ⟨fun ip => ?_, fun ep => ?_, fun ep => ?_, fun ep => ?_⟩
  · exact overviewDevice_state_pool config env now st (rid, ip) (hkey ip config.ip)
  · exact overviewDevice_state_resCache config env now st (rid, ep) (hkey ep "resources")
  · exact overviewDevice_state_qlCache config env now st (rid, ep) (hkey ep "queues_light")
  · exact overviewDevice_state_ovCache config env now st (rid, ep) (hkey ep "overview")

/-- The snapshot produced by `overviewDevice` depends only on the environment
and on the state keys of its own router id. -/
theorem overviewDevice_fst_congr (config : Config) (env : DeviceEnv) (now : Nat)
    (st st2 : AggState) (h : agreesOn config.id st st2) :
    (overviewDevice config env now st).1 = (overviewDevice config env now st2).1 := by
  obtain ⟨hpool, hres, hql, hov⟩ := h
  have hovc := getFromCache_congr st.ovCache st2.ovCache config.id "overview" now
    (hov "overview")
  have hconnc := getConnection_conn_congr st.pool st2.pool config now env.connect
    env.closeOk (hpool config.ip)
  rcases hcache : getFromCache st2.ovCache config.id "overview" now with _ | cached
  · rcases hconn : (getConnection st2.pool config now env.connect env.closeOk).conn
        with _ | hd
    · rw [hcache] at hovc
      rw [hconn] at hconnc
      simp only [overviewDevice, hovc, hcache, hconnc, hconn]
    · rw [hcache] at hovc
      rw [hconn] at hconnc
      simp only [overviewDevice, hovc, hcache, hconnc, hconn]
      have h1 := getRouterResources_fst_congr
        { st with pool := (getConnection st.pool config now env.connect env.closeOk).pool }
        { st2 with pool := (getConnection st2.pool config now env.connect env.closeOk).pool }
        config env now (hres "resources")
      have h2 := getQueueStatsLight_fst_congr
        (getRouterResources
          { st with pool := (getConnection st.pool config now env.connect env.closeOk).pool }
          config env now).2
        (getRouterResources
          { st2 with pool := (getConnection st2.pool config now env.connect env.closeOk).pool }
          config env now).2
        config env now
        (by
          rw [getRouterResources_qlCache, getRouterResources_qlCache]
          exact hql "queues_light")
      rw [h1, h2]
  · rw [hcache] at hovc
    simp only [overviewDevice, hovc, hcache]

/-- The fleet overview always answers one snapshot per configured device. -/
theorem fleetOverview_length (configs : List Config) (env : Nat → DeviceEnv)
    (now : Nat) (st : AggState) :
    (fleetOverview configs env now st).1.length = configs.length := by
  induction configs generalizing st with
  | nil => rfl
  | cons config rest ih => simp only [fleetOverview, List.length_cons, ih]

/-- For configurations with pairwise-distinct router ids, the serialised fleet
fan-out computes each snapshot as if from the shared initial state: the
branches are independent. -/
theorem fleetOverview_decomp (configs : List Config) (env : Nat → DeviceEnv)
    (now : Nat) (st : AggState) :
    (configs.map Config.id).Nodup →
      (fleetOverview configs env now st).1
        = configs.map (fun c => (overviewDevice c (env c.id) now st).1) := by
  induction configs generalizing st with
  | nil => intro _; rfl
  | cons config rest ih =>
    intro hdist
    obtain ⟨hnotin, hdist2⟩ : (∀ x ∈ rest, ¬ x.id = config.id) ∧ (rest.map Config.id).Nodup := by
      simpa using hdist
    simp only [fleetOverview, List.map_cons]
    rw [ih ((overviewDevice config (env config.id) now st).2) hdist2]
    have htail : rest.map
        (fun c => (overviewDevice c (env c.id) now
          ((overviewDevice config (env config.id) now st).2)).1)
        = rest.map (fun c => (overviewDevice c (env c.id) now st).1) := by
      apply List.map_congr_left
      intro c hc
      have hcid : c.id ≠ config.id := hnotin c hc
      exact overviewDevice_fst_congr c (env c.id) now _ st
        (overviewDevice_frame config (env config.id) now st c.id hcid)
    rw [htail]

/-- C1: for pairwise-distinct router ids, the fleet overview resolves to
exactly one snapshot per configured device; a device whose connect fails (with
no fresh overview cache entry and no pooled session) yields the offline
snapshot — zeroed metrics and the error message — at its own position, and
every other position is exactly what it would have been had that device not
failed. -/
theorem fleet_overview_isolation (configs : List Config) (envA envB : Nat → DeviceEnv)
    (now : Nat) (st : AggState) (hdist : (configs.map Config.id).Nodup)
    (i : Nat) (hi : i < configs.length)
    (hfail : (envB configs[i].id).connect = none)
    (hagree : ∀ d, d ≠ configs[i].id → envA d = envB d)
    (hmiss : getFromCache st.ovCache configs[i].id "overview" now = none)
    (hpool : st.pool (configs[i].id, configs[i].ip) = none) :
    (fleetOverview configs envB now st).1.length = configs.length
    ∧ (fleetOverview configs envB now st).1[i]? = some (offlineSnapshot configs[i])
    ∧ (∀ j, j ≠ i →
        (fleetOverview configs envB now st).1[j]?
          = (fleetOverview configs envA now st).1[j]?) := by
  have hdecB := fleetOverview_decomp configs envB now st hdist
  have hdecA := fleetOverview_decomp configs envA now st hdist
  refine ⟨fleetOverview_length configs envB now st, ?_, ?_⟩
  · rw [hdecB, List.getElem?_map, List.getElem?_eq_getElem hi]
    have hconnNone : (getConnection st.pool configs[i] now (envB configs[i].id).connect
        (envB configs[i].id).closeOk).conn = none := by
      simp only [getConnection, hpool, hfail]
    simp only [Option.map_some', overviewDevice, hmiss, hconnNone]
  · intro j hj
    rcases Nat.lt_or_ge j configs.length with hjl | hjge
    · rw [hdecB, hdecA, List.getElem?_map, List.getElem?_map,
        List.getElem?_eq_getElem hjl]
      simp only [Option.map_some']
      have hji : configs[j].id ≠ configs[i].id := by
        intro hEq
        apply hj
        apply @List.getElem?_inj _ j i (configs.map Config.id) (by simpa using hjl) hdist
        rw [List.getElem?_map, List.getElem?_map, List.getElem?_eq_getElem hjl,
          List.getElem?_eq_getElem hi]
        simp [hEq]
      rw [← hagree configs[j].id hji]
    · rw [hdecB, hdecA, List.getElem?_eq_none (by simpa using hjge),
        List.getElem?_eq_none (by simpa using hjge)]

theorem fleet_overview_isolation_witness :
    (fleetOverview [⟨1, "a", "10.0.0.1"⟩, ⟨2, "b", "10.0.0.2"⟩]
        (fun d => if d = 1 then ⟨none, true, none, none, none⟩
                  else ⟨some 5, true, some ⟨10, 100, 50, 50, 50, "1d", "7.1", "hap"⟩,
                        some 2, some (3, 2)⟩)
        900 emptyAgg).1.length = 2
    ∧ (fleetOverview [⟨1, "a", "10.0.0.1"⟩, ⟨2, "b", "10.0.0.2"⟩]
        (fun d => if d = 1 then ⟨none, true, none, none, none⟩
                  else ⟨some 5, true, some ⟨10, 100, 50, 50, 50, "1d", "7.1", "hap"⟩,
                        some 2, some (3, 2)⟩)
        900 emptyAgg).1[0]? = some (offlineSnapshot ⟨1, "a", "10.0.0.1"⟩)
    ∧ (∀ j, j ≠ 0 →
        (fleetOverview [⟨1, "a", "10.0.0.1"⟩, ⟨2, "b", "10.0.0.2"⟩]
          (fun d => if d = 1 then ⟨none, true, none, none, none⟩
                    else ⟨some 5, true, some ⟨10, 100, 50, 50, 50, "1d", "7.1", "hap"⟩,
                          some 2, some (3, 2)⟩)
          900 emptyAgg).1[j]?
          = (fleetOverview [⟨1, "a", "10.0.0.1"⟩, ⟨2, "b", "10.0.0.2"⟩]
              (fun _ => ⟨some 5, true, some ⟨10, 100, 50, 50, 50, "1d", "7.1", "hap"⟩,
                         some 2, some (3, 2)⟩)
              900 emptyAgg).1[j]?) := by
  have h := fleet_overview_isolation
      [⟨1, "a", "10.0.0.1"⟩, ⟨2, "b", "10.0.0.2"⟩]
      (fun _ => ⟨some 5, true, some ⟨10, 100, 50, 50, 50, "1d", "7.1", "hap"⟩,
                 some 2, some (3, 2)⟩)
      (fun d => if d = 1 then ⟨none, true, none, none, none⟩
                else ⟨some 5, true, some ⟨10, 100, 50, 50, 50, "1d", "7.1", "hap"⟩,
                      some 2, some (3, 2)⟩)
      900 emptyAgg (by decide) 0 (by decide) rfl
      (fun d hd => by
        simp only []
        rw [if_neg (show ¬ d = 1 from hd)])
      rfl rfl
  exact ⟨h.1, h.2.1, h.2.2⟩

/-- C2 counterexample: connect succeeds but the resource sub-query fails, so
`getRouterResources` returns `null` and the handler builds a snapshot with
`status = "error"` — and then stores it in the response cache under the
`overview` category, refuting the claim that a failed-sub-query result is
never cached. -/
theorem overview_error_snapshot_cached :
    (overviewDevice ⟨1, "router-a", "10.0.0.1"⟩
        ⟨some 7, true, none, some 0, some (0, 0)⟩ 1000 emptyAgg).1.status = "error"
    ∧ ((overviewDevice ⟨1, "router-a", "10.0.0.1"⟩
        ⟨some 7, true, none, some 0, some (0, 0)⟩ 1000 emptyAgg).2.ovCache
        (1, "overview")).isSome = true := by
  decide

/-- C2 amended: on a cache miss, a failed acquire (offline snapshot) leaves
the overview cache untouched, but every snapshot produced after a successful
acquire is stored under the `overview` category — including the
`status = "error"` snapshot built when the resources sub-query fails. -/
theorem overview_cache_policy (config : Config) (env : DeviceEnv) (now : Nat)
    (st : AggState) (hmiss : getFromCache st.ovCache config.id "overview" now = none) :
    ((getConnection st.pool config now env.connect env.closeOk).conn = none →
      (overviewDevice config env now st).2.ovCache = st.ovCache)
    ∧ (∀ handle,
        (getConnection st.pool config now env.connect env.closeOk).conn = some handle →
        (overviewDevice config env now st).2.ovCache (config.id, "overview")
          = some ⟨(overviewDevice config env now st).1, now⟩) := by
  constructor
  · intro hconn
    simp only [overviewDevice, hmiss, hconn]
  · intro handle hconn
    simp only [overviewDevice, hmiss, hconn, setCache]
    rw [if_pos trivial]

theorem overview_cache_policy_witness :
    (getFromCache emptyAgg.ovCache 1 "overview" 500 = none)
    ∧ ((getConnection emptyAgg.pool ⟨1, "a", "10.0.0.1"⟩ 500 (some 4) true).conn = some 4)
    ∧ (overviewDevice ⟨1, "a", "10.0.0.1"⟩
        ⟨some 4, true, some ⟨10, 100, 50, 50, 50, "1d", "7.1", "hap"⟩, some 1, some (2, 1)⟩
        500 emptyAgg).2.ovCache (1, "overview")
        = some ⟨(overviewDevice ⟨1, "a", "10.0.0.1"⟩
            ⟨some 4, true, some ⟨10, 100, 50, 50, 50, "1d", "7.1", "hap"⟩, some 1, some (2, 1)⟩
            500 emptyAgg).1, 500⟩ := by
  refine ⟨rfl, rfl, ?_⟩
  exact (overview_cache_policy ⟨1, "a", "10.0.0.1"⟩
      ⟨some 4, true, some ⟨10, 100, 50, 50, 50, "1d", "7.1", "hap"⟩, some 1, some (2, 1)⟩
      500 emptyAgg rfl).2 4 rfl

end MikrotikMonit
